import Mathlib

/-!
# Verification of the KSZ8851SNL SPI Ethernet controller driver

Shallow embedding of `src/driver.rs` (with register field layouts taken from
`src/device.rs`, the register map of the same chip that ships in this
repository).  The SPI bus is modelled as an explicit state: a 16-bit register
file, a trace of issued bus transactions, and an optional index of the single
transaction on which the transport reports an error; the driver itself is a
`Chip` owning that state plus the frame-id counter.  Driver entry points
become state-passing functions returning an `Outcome`:
`ok` models `Ok(..)`, `err` models `Err(..)`, `panicked` models a Rust panic
(`unwrap`, `assert!`, `assert_eq!`, slice-bound panic, `unimplemented!`), and
`hung` is a fuel-exhaustion artefact of the one busy-wait loop in `rx`.
-/

namespace Ksz8851

/-- The 2-bit SPI opcodes, `driver.rs` lines 10-16. -/
inductive Opcode where
  | RegRead
  | RegWrite
  | RXRead
  | TXWrite
deriving DecidableEq, Repr, Fintype

/-- Numeric value of an opcode (`repr(u8)` discriminants). -/
def Opcode.val : Opcode → Nat
  | .RegRead => 0b00
  | .RegWrite => 0b01
  | .RXRead => 0b10
  | .TXWrite => 0b11

/-- `reg_cmd` (`driver.rs` lines 64-76): builds the 2-byte register command
header.  The source `match (addr & 0b11, count)` diverges via
`unimplemented!()` on any arm other than `(0, 2)` and `(2, 2)`; that
precondition fault is modelled as `none`. -/
def reg_cmd (o : Opcode) (addr count : Nat) : Option (List Nat) :=
  if addr &&& 0b11 = 0 ∧ count = 2 then
    some [(o.val <<< 6) ||| (0b0011 <<< 2) ||| (addr >>> 6), (addr &&& 0b00111100) <<< 2]
  else if addr &&& 0b11 = 2 ∧ count = 2 then
    some [(o.val <<< 6) ||| (0b1100 <<< 2) ||| (addr >>> 6), (addr &&& 0b00111100) <<< 2]
  else
    none

/-! ## Register addresses (from `src/device.rs`) -/

def MARL_ADDR : Nat := 0x10
def MARM_ADDR : Nat := 0x12
def MARH_ADDR : Nat := 0x14
def MBIR_ADDR : Nat := 0x24
def GRR_ADDR : Nat := 0x26
def TXCR_ADDR : Nat := 0x70
def RXCR1_ADDR : Nat := 0x74
def RXCR2_ADDR : Nat := 0x76
def TXMIR_ADDR : Nat := 0x78
def RXFHSR_ADDR : Nat := 0x7C
def RXFHBCR_ADDR : Nat := 0x7E
def TXQCR_ADDR : Nat := 0x80
def RXQCR_ADDR : Nat := 0x82
def TXFDPR_ADDR : Nat := 0x84
def RXFDPR_ADDR : Nat := 0x86
def IER_ADDR : Nat := 0x90
def RXFCTR_ADDR : Nat := 0x9C
def TXNTFSR_ADDR : Nat := 0x9E
def CIDER_ADDR : Nat := 0xC0

/-- Modelled from the spec: the port-1 control/status registers `P1CR` and
`P1SR` used by `set_leds` and `link_good` are declared in the repository's
`registers` module, which is not under `src/`; `src/device.rs` stops at
`P1MBSR`.  Addresses follow the chip's documented register map. -/
def P1CR_ADDR : Nat := 0xF6

/-- Modelled from the spec: see `P1CR_ADDR`. -/
def P1SR_ADDR : Nat := 0xF8

attribute [simp] MARL_ADDR MARM_ADDR MARH_ADDR MBIR_ADDR GRR_ADDR TXCR_ADDR
  RXCR1_ADDR RXCR2_ADDR TXMIR_ADDR RXFHSR_ADDR RXFHBCR_ADDR TXQCR_ADDR
  RXQCR_ADDR TXFDPR_ADDR RXFDPR_ADDR IER_ADDR RXFCTR_ADDR TXNTFSR_ADDR
  CIDER_ADDR P1CR_ADDR P1SR_ADDR

/-- Write a single bit of a 16-bit register value (the `with_x(bool)`
builders of the register codec). -/
def withBit (v i : Nat) (b : Bool) : Nat :=
  if b then v ||| (1 <<< i) else v &&& (0xFFFF ^^^ (1 <<< i))

/-! ## Frame descriptor (TX control word) -/

/-- `TXCtrlWord` (`driver.rs` lines 111-119): bondrewd bitfield with
`transmit_interrupt_on_completion` in the top bit, 9 reserved bits, and a
6-bit `frame_id` in the low bits; `#[bondrewd(reverse)]` makes `into_bytes`
emit the two bytes low-byte first.  `src/device.rs` register `TxCtrlWord`
confirms the layout (bit 15 / bits 0..=5). -/
structure TXCtrlWord where
  transmit_interrupt_on_completion : Bool
  frame_id : Nat
deriving DecidableEq, Repr

/-- `TXCtrlWord::into_bytes()`: pack the 16-bit word and emit it little-endian. -/
def TXCtrlWord.into_bytes (w : TXCtrlWord) : List Nat :=
  let v := (cond w.transmit_interrupt_on_completion 1 0) * 32768 + (w.frame_id % 64)
  [v % 256, (v / 256) % 256]

/-- `u16::to_le_bytes` of a length cast `as u16`. -/
def leBytes16 (n : Nat) : List Nat := [n % 256, (n / 256) % 256]

/-- The full TXQ streaming transaction body emitted by `tx`
(`driver.rs` lines 373-382): opcode byte, 2 control-word bytes, 2 length
bytes, payload, zero padding to a multiple of 4 payload bytes. -/
def txFrameBytes (frameId : Nat) (buf : List Nat) : List Nat :=
  [(Opcode.TXWrite.val) <<< 6]
    ++ (TXCtrlWord.mk true frameId).into_bytes
    ++ leBytes16 buf.length
    ++ buf
    ++ List.replicate ((4 - buf.length % 4) % 4) 0

/-! ## RX frame header status decoding -/

/-- The decoded `RXFHSR` fields (`src/device.rs` register `RXFHSR`,
bits as documented there); `read_all()` in `rx` yields this record. -/
structure RXFHSRFields where
  frame_valid : Bool
  icmp_checksum_status : Bool
  ip_checksum_status : Bool
  tcp_checksum_status : Bool
  udp_checksum_status : Bool
  broadcast_frame : Bool
  multicast_frame : Bool
  unicast_frame : Bool
  mii_error : Bool
  frame_type : Bool
  frame_too_long : Bool
  runt_frame : Bool
  crc_error : Bool
deriving DecidableEq, Repr

/-- Decode a raw 16-bit `RXFHSR` value into its fields. -/
def readAllRXFHSR (v : Nat) : RXFHSRFields :=
  ⟨v.testBit 15, v.testBit 13, v.testBit 12, v.testBit 11, v.testBit 10,
   v.testBit 7, v.testBit 6, v.testBit 5, v.testBit 4, v.testBit 3,
   v.testBit 2, v.testBit 1, v.testBit 0⟩

/-! ## Errors and outcomes -/

/-- `Error` (`driver.rs` lines 78-98).  `spiError` collapses the transport's
`ErrorKind`; the other constructors carry the same payloads as the source. -/
inductive Error where
  | spiError
  | badChipId (expected_family actual_family expected_chip actual_chip : Nat)
  | failedBuiltInSelfTest (rx_bist_failed tx_bist_failed : Bool)
  | txPacketTooBig (size max : Nat)
  | rxFrameInvalid
  | rxNoFrameAvailable
deriving DecidableEq, Repr

/-- Result of running a driver entry point: `Ok`, `Err`, a Rust panic
(`unwrap` / `assert!` / `assert_eq!` / slice bound / `unimplemented!`), or
fuel exhaustion of the modelled busy-wait loop (a model artefact only). -/
inductive Outcome (α : Type) where
  | ok (a : α)
  | err (e : Error)
  | panicked
  | hung
deriving DecidableEq, Repr

/-! ## The SPI bus / chip state -/

/-- One SPI bus transaction, as recorded in the trace. -/
inductive BusOp where
  | regRead (addr : Nat)
  | regWrite (addr value : Nat)
  | stream (bytes : List Nat)
  | streamRead (payloadLen pad : Nat)
deriving DecidableEq, Repr

/-- Bus/chip state.  `regs` is the chip's 16-bit register file;
`opIdx`/`trace` record the transactions issued so far;
`rxStreamStatus`/`rxStreamBc`/`rxStreamPayload` are the status word,
byte-count word and payload bytes the chip delivers inside the RXQ streaming
read.  The transport's behaviour is the separate oracle argument `fail` of
every operation: the bus transaction with index `fail` reports a transport
error (`none`: the transport never fails). -/
structure S where
  regs : Nat → Nat
  opIdx : Nat
  trace : List BusOp
  rxStreamStatus : Nat
  rxStreamBc : Nat
  rxStreamPayload : Nat → Nat

/-- Record an issued bus transaction. -/
def bump (op : BusOp) (s : S) : S :=
  { s with opIdx := s.opIdx + 1, trace := s.trace ++ [op] }

/-- Chip-side effect of a register write.  Writes are stored verbatim except
that the self-clearing Release-RX-Error-Frame bit (`RXQCR` bit 0, which the
datasheet documents as cleared by the chip once the error frame is released)
clears immediately in this model. -/
def chipStore (a v : Nat) (regs : Nat → Nat) : Nat → Nat :=
  fun b => if b = a then (if a = RXQCR_ADDR then v &&& 0xFFFE else v) else regs b

/-- State after a successful register write. -/
def writeS (a v : Nat) (s : S) : S :=
  { bump (.regWrite a v) s with regs := chipStore a v s.regs }

/-- Issue a register read transaction (command header per `reg_cmd`, then a
2-byte data read).  Returns `none` exactly when the transport fails. -/
def busReadReg (fail : Option Nat) (a : Nat) (s : S) : Option Nat × S :=
  if fail = some s.opIdx then (none, bump (.regRead a) s)
  else (some (s.regs a), bump (.regRead a) s)

/-- Issue a register write transaction. -/
def busWriteReg (fail : Option Nat) (a v : Nat) (s : S) : Option Unit × S :=
  if fail = some s.opIdx then (none, bump (.regWrite a v) s)
  else (some (), writeS a v s)

/-- Issue the TXQ streaming write transaction of `tx`. -/
def busStream (fail : Option Nat) (bytes : List Nat) (s : S) : Option Unit × S :=
  if fail = some s.opIdx then (none, bump (.stream bytes) s)
  else (some (), bump (.stream bytes) s)

/-- Issue the RXQ streaming read transaction of `rx`: after the opcode byte
the chip delivers 4 dummy bytes, the status word, the byte-count word, the
2-byte IP-header offset, `payloadLen` payload bytes, the 4 CRC bytes and
`pad` alignment bytes; dummy/offset/CRC/pad land in scratch buffers, so only
status, byte count and payload are returned. -/
def busStreamRead (fail : Option Nat) (payloadLen pad : Nat) (s : S) :
    Option (Nat × Nat × List Nat) × S :=
  if fail = some s.opIdx then (none, bump (.streamRead payloadLen pad) s)
  else
    (some (s.rxStreamStatus, s.rxStreamBc, (List.range payloadLen).map s.rxStreamPayload),
     bump (.streamRead payloadLen pad) s)

/-! ## Driver entry points (`impl Chip` in `src/driver.rs`)

Each `match` arm mirrors one `?` (propagate `Err`) or `.unwrap()` /
`assert!` (panic) in the source.  The two 10 ms settle delays in `init` have
no bus effect and are not recorded. -/

/-- A pristine bus/chip state over register file `regs`. -/
def newS (regs : Nat → Nat) (rxSt rxBc : Nat) (rxPl : Nat → Nat) : S :=
  { regs := regs, opIdx := 0, trace := [],
    rxStreamStatus := rxSt, rxStreamBc := rxBc, rxStreamPayload := rxPl }

/-- `Chip` (`driver.rs` lines 105-109): the driver owns the bus/chip state
(`dev`) and the frame-id counter `next_frame_id`; the delay provider has no
modelled effect. -/
structure Chip where
  dev : S
  next_frame_id : Nat

/-- `Chip::new` (`driver.rs` lines 123-129): `next_frame_id` starts at 0. -/
def Chip.new (dev : S) : Chip := { dev := dev, next_frame_id := 0 }

/-- `init` (`driver.rs` lines 138-285).  Reset pulse and identity/self-test
checks propagate bus errors with `?`; every later configuration access uses
`.unwrap()` and therefore panics on a bus error. -/
def init (fail : Option Nat) (s : S) : Outcome Unit × S :=
  match busWriteReg fail GRR_ADDR 1 s with                    -- GRR global_soft_reset=1, `?`
  | (none, s) => (.err .spiError, s)
  | (some _, s) =>
  match busWriteReg fail GRR_ADDR 0 s with                    -- clear reset, `?`
  | (none, s) => (.err .spiError, s)
  | (some _, s) =>
  match busReadReg fail CIDER_ADDR s with                     -- `?`
  | (none, s) => (.err .spiError, s)
  | (some cider, s) =>
  if ((cider >>> 4) &&& 0xF) ≠ 0x7 ∨ ((cider >>> 8) &&& 0xFF) ≠ 0x88 then
    (.err (.badChipId 0x88 ((cider >>> 8) &&& 0xFF) 0x7 ((cider >>> 4) &&& 0xF)), s)
  else
  match busReadReg fail MBIR_ADDR s with                      -- `?`
  | (none, s) => (.err .spiError, s)
  | (some mbir, s) =>
  if mbir.testBit 3 ∨ mbir.testBit 11 then               -- rxmbfa / txmbfa
    (.err (.failedBuiltInSelfTest (mbir.testBit 3) (mbir.testBit 11)), s)
  else
  match busReadReg fail TXFDPR_ADDR s with
  | (none, s) => (.panicked, s)
  | (some v, s) =>
  match busWriteReg fail TXFDPR_ADDR (withBit v 14 true) s with   -- txfpai
  | (none, s) => (.panicked, s)
  | (some _, s) =>
  match busReadReg fail TXCR_ADDR s with
  | (none, s) => (.panicked, s)
  | (some v, s) =>
  match busWriteReg fail TXCR_ADDR
      (withBit (withBit (withBit (withBit (withBit (withBit v
        8 false) 6 false) 5 false) 3 false) 2 true) 1 true) s with
  | (none, s) => (.panicked, s)
  | (some _, s) =>
  match busReadReg fail RXFDPR_ADDR s with
  | (none, s) => (.panicked, s)
  | (some v, s) =>
  match busWriteReg fail RXFDPR_ADDR (withBit v 14 true) s with   -- rxfpai
  | (none, s) => (.panicked, s)
  | (some _, s) =>
  match busReadReg fail RXFCTR_ADDR s with
  | (none, s) => (.panicked, s)
  | (some v, s) =>
  match busWriteReg fail RXFCTR_ADDR ((v &&& 0xFF00) ||| 1) s with  -- rxfct := 1
  | (none, s) => (.panicked, s)
  | (some _, s) =>
  match busReadReg fail RXQCR_ADDR s with
  | (none, s) => (.panicked, s)
  | (some v, s) =>
  match busWriteReg fail RXQCR_ADDR (withBit (withBit (withBit v 5 true) 9 true) 4 true) s with
  | (none, s) => (.panicked, s)
  | (some _, s) =>
  match busReadReg fail RXCR1_ADDR s with
  | (none, s) => (.panicked, s)
  | (some v, s) =>
  match busWriteReg fail RXCR1_ADDR
      (withBit (withBit (withBit (withBit (withBit (withBit v
        14 false) 13 false) 12 false) 10 true) 7 true) 5 true) s with
  | (none, s) => (.panicked, s)
  | (some _, s) =>
  match busReadReg fail RXCR2_ADDR s with
  | (none, s) => (.panicked, s)
  | (some v, s) =>
  match busWriteReg fail RXCR2_ADDR
      (((withBit (withBit (withBit (withBit v 4 true) 3 true) 2 true) 1 true)
          &&& (0xFFFF ^^^ (0b111 <<< 5))) ||| (4 <<< 5)) s with  -- srdbl := SINGLEFRAME
  | (none, s) => (.panicked, s)
  | (some _, s) =>
  match busReadReg fail IER_ADDR s with
  | (none, s) => (.panicked, s)
  | (some v, s) =>
  match busWriteReg fail IER_ADDR
      (withBit (withBit (withBit (withBit (withBit (withBit v
        15 true) 6 true) 14 true) 13 true) 11 true) 1 true) s with
  | (none, s) => (.panicked, s)
  | (some _, s) =>
  match busReadReg fail TXQCR_ADDR s with
  | (none, s) => (.panicked, s)
  | (some v, s) =>
  match busWriteReg fail TXQCR_ADDR (withBit v 2 false) s with      -- aetfe := false
  | (none, s) => (.panicked, s)
  | (some _, s) =>
  match busReadReg fail TXCR_ADDR s with
  | (none, s) => (.panicked, s)
  | (some v, s) =>
  match busWriteReg fail TXCR_ADDR (withBit v 0 true) s with        -- txe
  | (none, s) => (.panicked, s)
  | (some _, s) =>
  match busReadReg fail RXCR1_ADDR s with
  | (none, s) => (.panicked, s)
  | (some v, s) =>
  match busWriteReg fail RXCR1_ADDR (withBit v 0 true) s with       -- rxe
  | (none, s) => (.panicked, s)
  | (some _, s) =>
  (.ok (), s)

/-- `set_leds` (`driver.rs` lines 287-290).  The LED-off bit position is
modelled from the spec (`P1CR` is not in `src/`). -/
def set_leds (fail : Option Nat) (on_ : Bool) (s : S) : Outcome Unit × S :=
  match busReadReg fail P1CR_ADDR s with
  | (none, s) => (.err .spiError, s)
  | (some v, s) =>
  match busWriteReg fail P1CR_ADDR (withBit v 15 (!on_)) s with
  | (none, s) => (.err .spiError, s)
  | (some _, s) => (.ok (), s)

/-- Pack two MAC bytes into the 16-bit register value used by the
`MARH`/`MARM`/`MARL` codec (a fixed two-byte field covering the whole
register; the same codec is used by reads and writes). -/
def macPair (a b : Nat) : Nat := a + 256 * b

/-- `set_mac` (`driver.rs` lines 293-304): writes `MARH ← mac[0..2]`,
`MARM ← mac[2..4]`, `MARL ← mac[4..6]`, each with `?`. -/
def set_mac (fail : Option Nat) (mac : List Nat) (s : S) : Outcome Unit × S :=
  match busWriteReg fail MARH_ADDR (macPair (mac.getD 0 0) (mac.getD 1 0)) s with
  | (none, s) => (.err .spiError, s)
  | (some _, s) =>
  match busWriteReg fail MARM_ADDR (macPair (mac.getD 2 0) (mac.getD 3 0)) s with
  | (none, s) => (.err .spiError, s)
  | (some _, s) =>
  match busWriteReg fail MARL_ADDR (macPair (mac.getD 4 0) (mac.getD 5 0)) s with
  | (none, s) => (.err .spiError, s)
  | (some _, s) => (.ok (), s)

/-- `get_mac` (`driver.rs` lines 309-314): reads `MARH`, `MARM`, `MARL` and
returns `[high[0], high[1], med[0], med[1], low[0], low[1]]`. -/
def get_mac (fail : Option Nat) (s : S) : Outcome (List Nat) × S :=
  match busReadReg fail MARH_ADDR s with
  | (none, s) => (.err .spiError, s)
  | (some high, s) =>
  match busReadReg fail MARM_ADDR s with
  | (none, s) => (.err .spiError, s)
  | (some med, s) =>
  match busReadReg fail MARL_ADDR s with
  | (none, s) => (.err .spiError, s)
  | (some low, s) =>
  (.ok [high % 256, (high >>> 8) % 256, med % 256, (med >>> 8) % 256,
        low % 256, (low >>> 8) % 256], s)

/-- `link_good` (`driver.rs` lines 317-319).  Bit position modelled from the
spec (`P1SR` is not in `src/`). -/
def link_good (fail : Option Nat) (s : S) : Outcome Bool × S :=
  match busReadReg fail P1SR_ADDR s with
  | (none, s) => (.err .spiError, s)
  | (some v, s) => (.ok (v.testBit 5), s)

/-- `ready_tx` (`driver.rs` lines 324-351): rejects `tx_len > 2000` before
any bus access; otherwise reads `TXMIR` (unwrap) and, when the buffer lacks
space, arms the memory-available monitor (both writes with `?`). -/
def ready_tx (fail : Option Nat) (tx_len : Nat) (s : S) : Outcome Bool × S :=
  if tx_len > 2000 then (.err (.txPacketTooBig tx_len 2000), s)
  else
  match busReadReg fail TXMIR_ADDR s with
  | (none, s) => (.panicked, s)
  | (some v, s) =>
  if tx_len + 4 > (v &&& 0x1FFF) then                    -- txma bits 0..=12
    match busWriteReg fail TXNTFSR_ADDR ((tx_len + 4) &&& 0xFFFF) s with
    | (none, s) => (.err .spiError, s)
    | (some _, s) =>
    match busWriteReg fail TXQCR_ADDR (withBit 0 1 true) s with  -- txqmam on zeroed TXQCR
    | (none, s) => (.err .spiError, s)
    | (some _, s) => (.ok false, s)
  else (.ok true, s)

/-- `tx` (`driver.rs` lines 355-403): save and clear `IER`, set
`RXQCR.start_dma_access`, emit the streaming transaction (`?`), advance the
frame-id counter modulo 32, clear DMA access, set the manual-enqueue bit and
restore the saved `IER` (all register accesses `.unwrap()`). -/
def tx (fail : Option Nat) (buf : List Nat) (c : Chip) : Outcome Unit × Chip :=
  match busReadReg fail IER_ADDR c.dev with
  | (none, s) => (.panicked, { c with dev := s })
  | (some ier, s) =>
  match busWriteReg fail IER_ADDR 0 s with
  | (none, s) => (.panicked, { c with dev := s })
  | (some _, s) =>
  match busReadReg fail RXQCR_ADDR s with
  | (none, s) => (.panicked, { c with dev := s })
  | (some rxqcr, s) =>
  match busWriteReg fail RXQCR_ADDR (withBit rxqcr 3 true) s with   -- sda
  | (none, s) => (.panicked, { c with dev := s })
  | (some _, s) =>
  match busStream fail (txFrameBytes c.next_frame_id buf) s with    -- `?`
  | (none, s) => (.err .spiError, { c with dev := s })
  | (some _, s) =>
  let fid := if c.next_frame_id = 0x1f then 0 else c.next_frame_id + 1
  match busReadReg fail RXQCR_ADDR s with
  | (none, s) => (.panicked, ⟨s, fid⟩)
  | (some rxqcr, s) =>
  match busWriteReg fail RXQCR_ADDR (withBit rxqcr 3 false) s with
  | (none, s) => (.panicked, ⟨s, fid⟩)
  | (some _, s) =>
  match busReadReg fail TXQCR_ADDR s with
  | (none, s) => (.panicked, ⟨s, fid⟩)
  | (some txqcr, s) =>
  match busWriteReg fail TXQCR_ADDR (withBit txqcr 0 true) s with   -- metfe
  | (none, s) => (.panicked, ⟨s, fid⟩)
  | (some _, s) =>
  match busWriteReg fail IER_ADDR ier s with
  | (none, s) => (.panicked, ⟨s, fid⟩)
  | (some _, s) => (.ok (), ⟨s, fid⟩)

/-- `rx_frames_available` (`driver.rs` lines 407-413): `RXFCTR.rx_frame_count`
(bits 8..=15), read with `?`. -/
def rx_frames_available (fail : Option Nat) (s : S) : Outcome Nat × S :=
  match busReadReg fail RXFCTR_ADDR s with
  | (none, s) => (.err .spiError, s)
  | (some v, s) => (.ok ((v >>> 8) &&& 0xFF), s)

/-- The busy-wait of `rx` (`driver.rs` lines 453-459): read `RXQCR` (with
`.unwrap()`) until the release-error-frame bit reads clear.  `fuel` bounds
the modelled iteration count; the source loop is unbounded. -/
def waitReleaseClear (fail : Option Nat) (fuel : Nat) (s : S) : Outcome Unit × S :=
  match fuel with
  | 0 => (.hung, s)
  | fuel + 1 =>
    match busReadReg fail RXQCR_ADDR s with
    | (none, s) => (.panicked, s)
    | (some v, s) =>
      if v.testBit 0 then waitReleaseClear fail fuel s else (.ok (), s)

/-- `rx` (`driver.rs` lines 416-529).  `rxBuf` is the caller's buffer
contents and `bufLen` its length; a successful result carries the source's
return value `byte_count - 4` together with the buffer contents after the
streaming read overwrote its first `byte_count - 4 - 2` bytes.  The explicit
`byteCount < 6` panic models the `u16` underflow of `byte_count - 4 - 2`,
which makes the payload slice bound exceed the buffer. -/
def rx (fail : Option Nat) (fuel bufLen : Nat) (rxBuf : List Nat) (s : S) :
    Outcome (Nat × List Nat) × S :=
  match busReadReg fail IER_ADDR s with                       -- `?`
  | (none, s) => (.err .spiError, s)
  | (some ier, s) =>
  if ier.testBit 13 then (.panicked, s)                  -- assert!(!receive_enable)
  else
  match busWriteReg fail IER_ADDR 0 s with
  | (none, s) => (.panicked, s)
  | (some _, s) =>
  match busReadReg fail RXFHSR_ADDR s with                    -- `?`
  | (none, s) => (.err .spiError, s)
  | (some frameStatus, s) =>
  match busReadReg fail RXFHBCR_ADDR s with
  | (none, s) => (.panicked, s)
  | (some bcRaw, s) =>
  let byteCount := bcRaw &&& 0xFFF                       -- rxbc bits 0..=11
  let fs := readAllRXFHSR frameStatus
  if !fs.frame_valid then (.err .rxNoFrameAvailable, s)
  else if fs.crc_error ∨ fs.runt_frame ∨ fs.frame_too_long ∨ fs.mii_error ∨
      fs.udp_checksum_status ∨ fs.tcp_checksum_status ∨ fs.ip_checksum_status ∨
      fs.icmp_checksum_status then
    match busReadReg fail RXQCR_ADDR s with
    | (none, s) => (.panicked, s)
    | (some rxqcr, s) =>
    match busWriteReg fail RXQCR_ADDR (withBit rxqcr 0 true) s with  -- rrxef
    | (none, s) => (.panicked, s)
    | (some _, s) =>
    match waitReleaseClear fail fuel s with
    | (.ok _, s) => (.err .rxFrameInvalid, s)
    | (.err e, s) => (.err e, s)
    | (.panicked, s) => (.panicked, s)
    | (.hung, s) => (.hung, s)
  else if bufLen < byteCount then (.panicked, s)          -- panic: byte count too big
  else if byteCount < 6 then (.panicked, s)               -- u16 underflow in bc-4-2
  else
  match busReadReg fail RXFDPR_ADDR s with
  | (none, s) => (.panicked, s)
  | (some rxfdpr, s) =>
  match busWriteReg fail RXFDPR_ADDR (rxfdpr &&& 0xF800) s with  -- rx_frame_pointer := 0
  | (none, s) => (.panicked, s)
  | (some _, s) =>
  match busReadReg fail RXQCR_ADDR s with
  | (none, s) => (.panicked, s)
  | (some rxqcr, s) =>
  match busWriteReg fail RXQCR_ADDR (withBit rxqcr 3 true) s with  -- sda
  | (none, s) => (.panicked, s)
  | (some _, s) =>
  match busStreamRead fail (byteCount - 4 - 2) ((4 - byteCount % 4) % 4) s with
  | (none, s) => (.panicked, s)
  | (some (stStream, bcStream, payload), s) =>
  if readAllRXFHSR frameStatus ≠ readAllRXFHSR stStream then  -- assert_eq!
    (.panicked, s)
  else if byteCount ≠ (bcStream &&& 0xFFF) then               -- assert_eq!
    (.panicked, s)
  else
  match busReadReg fail RXQCR_ADDR s with
  | (none, s) => (.panicked, s)
  | (some rxqcr, s) =>
  match busWriteReg fail RXQCR_ADDR (withBit rxqcr 3 false) s with
  | (none, s) => (.panicked, s)
  | (some _, s) =>
  match busWriteReg fail IER_ADDR ier s with
  | (none, s) => (.panicked, s)
  | (some _, s) =>
  (.ok (byteCount - 4, payload ++ rxBuf.drop (byteCount - 4 - 2)), s)

/-! ## Helper lemmas about the bus primitives -/

@[simp] lemma bump_regs (op : BusOp) (s : S) : (bump op s).regs = s.regs := rfl
@[simp] lemma bump_opIdx (op : BusOp) (s : S) : (bump op s).opIdx = s.opIdx + 1 := rfl
@[simp] lemma bump_trace (op : BusOp) (s : S) : (bump op s).trace = s.trace ++ [op] := rfl
@[simp] lemma bump_rxStreamStatus (op : BusOp) (s : S) :
    (bump op s).rxStreamStatus = s.rxStreamStatus := rfl
@[simp] lemma bump_rxStreamBc (op : BusOp) (s : S) : (bump op s).rxStreamBc = s.rxStreamBc := rfl
@[simp] lemma bump_rxStreamPayload (op : BusOp) (s : S) :
    (bump op s).rxStreamPayload = s.rxStreamPayload := rfl

@[simp] lemma writeS_regs (a v : Nat) (s : S) : (writeS a v s).regs = chipStore a v s.regs := rfl
@[simp] lemma writeS_opIdx (a v : Nat) (s : S) : (writeS a v s).opIdx = s.opIdx + 1 := rfl
@[simp] lemma writeS_trace (a v : Nat) (s : S) :
    (writeS a v s).trace = s.trace ++ [.regWrite a v] := rfl
@[simp] lemma writeS_rxStreamStatus (a v : Nat) (s : S) :
    (writeS a v s).rxStreamStatus = s.rxStreamStatus := rfl
@[simp] lemma writeS_rxStreamBc (a v : Nat) (s : S) :
    (writeS a v s).rxStreamBc = s.rxStreamBc := rfl
@[simp] lemma writeS_rxStreamPayload (a v : Nat) (s : S) :
    (writeS a v s).rxStreamPayload = s.rxStreamPayload := rfl

lemma chipStore_apply (a v : Nat) (regs : Nat → Nat) (b : Nat) :
    chipStore a v regs b = if b = a then (if a = RXQCR_ADDR then v &&& 0xFFFE else v) else regs b :=
  rfl

/-- On a non-failing transport, a register read returns the stored value. -/
@[simp] lemma busReadReg_none (a : Nat) (s : S) :
    busReadReg none a s = (some (s.regs a), bump (.regRead a) s) := by
  simp [busReadReg]

/-- On a non-failing transport, a register write succeeds. -/
@[simp] lemma busWriteReg_none (a v : Nat) (s : S) :
    busWriteReg none a v s = (some (), writeS a v s) := by
  simp [busWriteReg]

/-- On a non-failing transport, the TXQ streaming write succeeds. -/
@[simp] lemma busStream_none (bytes : List Nat) (s : S) :
    busStream none bytes s = (some (), bump (.stream bytes) s) := by
  simp [busStream]

/-- On a non-failing transport, the RXQ streaming read delivers the chip's
stream data. -/
@[simp] lemma busStreamRead_none (n p : Nat) (s : S) :
    busStreamRead none n p s =
      (some (s.rxStreamStatus, s.rxStreamBc, (List.range n).map s.rxStreamPayload),
       bump (.streamRead n p) s) := by
  simp [busStreamRead]

lemma busReadReg_some (fail : Option Nat) (a : Nat) (s : S) {v : Nat} {s' : S}
    (h : busReadReg fail a s = (some v, s')) : v = s.regs a ∧ s' = bump (.regRead a) s := by
  unfold busReadReg at h
  split at h <;> simp_all

lemma busWriteReg_some (fail : Option Nat) (a v : Nat) (s : S) {u : Unit} {s' : S}
    (h : busWriteReg fail a v s = (some u, s')) : s' = writeS a v s := by
  unfold busWriteReg at h
  split at h <;> simp_all

lemma busStream_some (fail : Option Nat) (bytes : List Nat) (s : S) {u : Unit} {s' : S}
    (h : busStream fail bytes s = (some u, s')) : s' = bump (.stream bytes) s := by
  unfold busStream at h
  split at h <;> simp_all

lemma busStreamRead_some (fail : Option Nat) (n p : Nat) (s : S) {t : Nat × Nat × List Nat}
    {s' : S} (h : busStreamRead fail n p s = (some t, s')) :
    t = (s.rxStreamStatus, s.rxStreamBc, (List.range n).map s.rxStreamPayload) ∧
      s' = bump (.streamRead n p) s := by
  unfold busStreamRead at h
  split at h <;> simp_all

lemma busReadReg_snd (fail : Option Nat) (a : Nat) (s : S) {r : Option Nat} {s' : S}
    (h : busReadReg fail a s = (r, s')) : s' = bump (.regRead a) s := by
  unfold busReadReg at h
  split at h <;> simp_all

lemma busWriteReg_snd (fail : Option Nat) (a v : Nat) (s : S) {r : Option Unit} {s' : S}
    (h : busWriteReg fail a v s = (r, s')) :
    s' = bump (.regWrite a v) s ∨ s' = writeS a v s := by
  unfold busWriteReg at h
  split at h <;> simp_all

lemma and_three_eq_mod (a : Nat) : a &&& 3 = a % 4 := by
  have h := Nat.and_pow_two_sub_one_eq_mod a 2
  norm_num at h
  exact h

/-! ## C1: register command header encoding -/

/-- What C1 asserts of the encoded header at a supported (address, width)
pair: two header bytes; opcode in the top 2 bits of the first byte; the
4-bit byte-enable mask next, `0011` for address ≡ 0 (mod 4) and `1100` for
address ≡ 2 (mod 4); and the address bits packed across both bytes (they
reconstruct the address together with its residue mod 4). -/
def RegCmdHeaderSpec (o : Opcode) (addr count : Nat) : Prop :=
  ((reg_cmd o addr count).getD []).length = 2 ∧
  (((reg_cmd o addr count).getD []).getD 0 0) >>> 6 = o.val ∧
  ((((reg_cmd o addr count).getD []).getD 0 0) >>> 2) &&& 0xF =
    (if addr % 4 = 0 then 0b0011 else 0b1100) ∧
  (((((reg_cmd o addr count).getD []).getD 0 0) &&& 0b11) <<< 6) |||
    (((((reg_cmd o addr count).getD []).getD 1 0) >>> 4) <<< 2) ||| (addr % 4) = addr ∧
  (reg_cmd o addr count).isSome = true

instance (o : Opcode) (addr count : Nat) : Decidable (RegCmdHeaderSpec o addr count) := by
  unfold RegCmdHeaderSpec
  infer_instance

set_option maxRecDepth 4096 in
lemma regCmdHeaderSpec_holds : ∀ (o : Opcode), ∀ a, a < 256 → a % 2 = 0 →
    RegCmdHeaderSpec o a 2 := by
  decide

/-- C1: for every register access with a 2-byte width and 2-byte-aligned
address (`addr` a `u8`), the encoded 2-byte command header has the opcode in
the top 2 bits of the first byte, the 4-bit byte-enable mask next
(`0011` when `addr % 4 = 0`, `1100` when `addr % 4 = 2`), and the address
bits packed across both header bytes; any other (alignment, width)
combination is rejected as a precondition fault (`unimplemented!`,
modelled as `none`), not a runtime error. -/
theorem reg_cmd_byte_enable_encoding (o : Opcode) (addr count : Nat)
    (haddr : addr < 256) :
    (addr % 2 = 0 ∧ count = 2 → RegCmdHeaderSpec o addr count) ∧
    (¬(addr % 2 = 0 ∧ count = 2) → reg_cmd o addr count = none) := by
  constructor
  · rintro ⟨h2, rfl⟩
    exact regCmdHeaderSpec_holds o addr haddr h2
  · intro hn
    by_cases hc : count = 2
    · subst hc
      have ha : ¬ addr % 2 = 0 := by tauto
      have h4 : addr &&& 3 = addr % 4 := and_three_eq_mod addr
      have h0 : addr % 4 ≠ 0 := by omega
      have h2 : addr % 4 ≠ 2 := by omega
      simp [reg_cmd, h4, h0, h2]
    · simp [reg_cmd, hc]

/-- Witness for C1 at the concrete inputs `IER` (address `0x90`, aligned 0
mod 4), address `0x7E` (aligned 2 mod 4), and the rejected odd address
`0x11`. -/
theorem reg_cmd_byte_enable_encoding_witness :
    ((0x90 : Nat) < 256 ∧ (0x90 % 2 = 0 ∧ 2 = 2 → RegCmdHeaderSpec .RegRead 0x90 2)) ∧
    ((0x7E : Nat) < 256 ∧ (0x7E % 2 = 0 ∧ 2 = 2 → RegCmdHeaderSpec .RegWrite 0x7E 2)) ∧
    ((0x11 : Nat) < 256 ∧
      (¬((0x11 : Nat) % 2 = 0 ∧ 2 = 2) → reg_cmd .RegRead 0x11 2 = none)) :=
  ⟨⟨by decide, (reg_cmd_byte_enable_encoding .RegRead 0x90 2 (by decide)).1⟩,
   ⟨by decide, (reg_cmd_byte_enable_encoding .RegWrite 0x7E 2 (by decide)).1⟩,
   ⟨by decide, (reg_cmd_byte_enable_encoding .RegRead 0x11 2 (by decide)).2⟩⟩

/-! ## Concrete test states for witnesses and counterexamples -/

/-- An all-zero register file. -/
def zeroRegs : Nat → Nat := fun _ => 0

/-- A pristine bus/chip state over an all-zero chip on a non-failing
transport. -/
def sTest : S := newS zeroRegs 0 0 (fun _ => 0)

/-- A fresh driver (`Chip::new`) over that state. -/
def cTest : Chip := Chip.new sTest

/-! ## C3: oversized `ready_tx` requests are rejected before any bus access -/

/-- C3: for every `len > 2000`, `ready_tx len` returns the oversized-packet
error before issuing any bus access: the bus trace and transaction counter
are untouched. -/
theorem ready_tx_oversize_no_bus_access (fail : Option Nat) (len : Nat) (s : S)
    (h : len > 2000) :
    (ready_tx fail len s).1 = .err (.txPacketTooBig len 2000) ∧
    (ready_tx fail len s).2.trace = s.trace ∧
    (ready_tx fail len s).2.opIdx = s.opIdx := by
  simp [ready_tx, h]

/-- Witness for C3 at `len = 2001` on a fresh driver (whose trace is empty,
so the call performs zero bus transactions). -/
theorem ready_tx_oversize_no_bus_access_witness :
    2001 > 2000 ∧
    ((ready_tx none 2001 sTest).1 = .err (.txPacketTooBig 2001 2000) ∧
     (ready_tx none 2001 sTest).2.trace = sTest.trace ∧
     (ready_tx none 2001 sTest).2.opIdx = sTest.opIdx) :=
  ⟨by decide, ready_tx_oversize_no_bus_access none 2001 sTest (by decide)⟩

/-! ## C9: MAC address set/get round trip -/

/-- C9: writing any 6-byte MAC address with `set_mac` and reading it back
with `get_mac`, over a chip that stores register writes faithfully and a
non-failing transport, returns the identical 6 bytes in the same order. -/
theorem set_get_mac_roundtrip (s : S) (m0 m1 m2 m3 m4 m5 : Nat)
    (h0 : m0 < 256) (h1 : m1 < 256) (h2 : m2 < 256)
    (h3 : m3 < 256) (h4 : m4 < 256) (h5 : m5 < 256) :
    (set_mac none [m0, m1, m2, m3, m4, m5] s).1 = .ok () ∧
    (get_mac none (set_mac none [m0, m1, m2, m3, m4, m5] s).2).1 =
      .ok [m0, m1, m2, m3, m4, m5] := by
  simp only [set_mac, get_mac, busWriteReg_none, busReadReg_none,
    writeS_regs, bump_regs, List.getD_cons_zero, List.getD_cons_succ]
  refine ⟨trivial, ?_⟩
  simp [chipStore_apply, MARL_ADDR, MARM_ADDR, MARH_ADDR, RXQCR_ADDR, macPair,
    Nat.shiftRight_eq_div_pow]
  omega

/-- Witness for C9 at the all-zeros and all-ones MAC addresses on a fresh
driver. -/
theorem set_get_mac_roundtrip_witness :
    ((get_mac none (set_mac none [0, 0, 0, 0, 0, 0] sTest).2).1 = .ok [0, 0, 0, 0, 0, 0]) ∧
    ((get_mac none (set_mac none [0xFF, 0xFF, 0xFF, 0xFF, 0xFF, 0xFF] sTest).2).1 =
      .ok [0xFF, 0xFF, 0xFF, 0xFF, 0xFF, 0xFF]) :=
  ⟨(set_get_mac_roundtrip sTest 0 0 0 0 0 0 (by decide) (by decide) (by decide)
      (by decide) (by decide) (by decide)).2,
   (set_get_mac_roundtrip sTest 0xFF 0xFF 0xFF 0xFF 0xFF 0xFF (by decide) (by decide)
      (by decide) (by decide) (by decide) (by decide)).2⟩

/-! ## C2 / C10: the TX streaming transaction -/

/-- Does a trace entry record a TXQ streaming write? -/
def isStreamOp : BusOp → Bool
  | .stream _ => true
  | _ => false

/-- The 2-byte length field of the TX frame (bytes 3 and 4 of the streaming
transaction) holds the payload length cast to `u16`, little-endian. -/
lemma txFrameBytes_lenField (f : Nat) (buf : List Nat) :
    (txFrameBytes f buf).getD 3 0 + 256 * (txFrameBytes f buf).getD 4 0 =
      buf.length % 65536 := by
  simp [txFrameBytes, TXCtrlWord.into_bytes, leBytes16]
  omega

/-- C2 (amended): on a non-failing transport, `tx` emits exactly one
streaming bus transaction, whose bytes are 1 opcode byte, the 2-byte control
word, a 2-byte length field, the payload, and `(4 - L mod 4) mod 4` zero
padding bytes, in that order and nothing else; the length field holds
`L mod 2^16` (the `u16` cast of the payload length), which equals `L`
whenever `L < 2^16`. -/
theorem tx_stream_framing (buf : List Nat) (c : Chip) :
    (tx none buf c).2.dev.trace.filter isStreamOp =
      c.dev.trace.filter isStreamOp ++ [.stream (txFrameBytes c.next_frame_id buf)] ∧
    (txFrameBytes c.next_frame_id buf).length =
      1 + 2 + 2 + buf.length + (4 - buf.length % 4) % 4 ∧
    (txFrameBytes c.next_frame_id buf).getD 0 0 = 0xC0 ∧
    ((txFrameBytes c.next_frame_id buf).drop 1).take 2 =
      (TXCtrlWord.mk true c.next_frame_id).into_bytes ∧
    (txFrameBytes c.next_frame_id buf).getD 3 0 +
        256 * (txFrameBytes c.next_frame_id buf).getD 4 0 = buf.length % 65536 ∧
    ((txFrameBytes c.next_frame_id buf).drop 5).take buf.length = buf ∧
    (txFrameBytes c.next_frame_id buf).drop (5 + buf.length) =
      List.replicate ((4 - buf.length % 4) % 4) 0 ∧
    (buf.length < 65536 →
      (txFrameBytes c.next_frame_id buf).getD 3 0 +
        256 * (txFrameBytes c.next_frame_id buf).getD 4 0 = buf.length) := by
  refine ⟨?_, ?_, ?_, ?_, ?_, ?_, ?_, ?_⟩
  · simp [tx, List.filter_append, isStreamOp]
  · simp [txFrameBytes, TXCtrlWord.into_bytes, leBytes16]
    omega
  · simp [txFrameBytes, Opcode.val]
  · simp [txFrameBytes, TXCtrlWord.into_bytes]
  · exact txFrameBytes_lenField c.next_frame_id buf
  · show (List.drop 5 ([_] ++ _ ++ _ ++ buf ++ _)).take buf.length = buf
    simp [txFrameBytes, TXCtrlWord.into_bytes, leBytes16, List.take_left]
  · show List.drop (5 + buf.length)
        (([(Opcode.TXWrite.val) <<< 6] ++ (TXCtrlWord.mk true c.next_frame_id).into_bytes
            ++ leBytes16 buf.length ++ buf) ++ _) = _
    exact List.drop_left' (by simp [TXCtrlWord.into_bytes, leBytes16]; omega)
  · intro hlt
    simp [txFrameBytes, TXCtrlWord.into_bytes, leBytes16]
    omega

/-- Witness for C2 (amended) on a fresh driver with the 3-byte payload
`[1, 2, 3]` (so one padding byte). -/
theorem tx_stream_framing_witness :
    (tx none [1, 2, 3] cTest).2.dev.trace.filter isStreamOp =
      cTest.dev.trace.filter isStreamOp ++
        [.stream (txFrameBytes cTest.next_frame_id [1, 2, 3])] ∧
    (txFrameBytes cTest.next_frame_id [1, 2, 3]).length =
      1 + 2 + 2 + (3 : Nat) + (4 - 3 % 4) % 4 := by
  have h := tx_stream_framing [1, 2, 3] cTest
  exact ⟨h.1, h.2.1⟩

/-- Counterexample for C2 as stated: for the 65536-byte payload the 2-byte
length field reads back 0, not the payload length; a 2-byte field cannot
carry lengths at or above 2^16 (`buf.len() as u16` truncates). -/
theorem tx_length_field_truncates :
    (List.replicate 65536 (0 : Nat)).length = 65536 ∧
    (txFrameBytes 0 (List.replicate 65536 (0 : Nat))).getD 3 0 +
        256 * (txFrameBytes 0 (List.replicate 65536 (0 : Nat))).getD 4 0 = 0 ∧
    (0 : Nat) ≠ 65536 := by
  refine ⟨by rw [List.length_replicate], ?_, by decide⟩
  have h := txFrameBytes_lenField 0 (List.replicate 65536 0)
  rw [List.length_replicate, Nat.mod_self] at h
  exact h

/-- C10: `tx` performs no validation of its payload: for every payload and
every transport behaviour it never returns the oversized-packet error, and
on a non-failing transport it always succeeds and always issues the
streaming transaction carrying the framed payload. -/
theorem tx_no_validation (buf : List Nat) (c : Chip) :
    (∀ (fail : Option Nat) n m, (tx fail buf c).1 ≠ .err (.txPacketTooBig n m)) ∧
    ((tx none buf c).1 = .ok () ∧
     (tx none buf c).2.dev.trace.filter isStreamOp =
       c.dev.trace.filter isStreamOp ++ [.stream (txFrameBytes c.next_frame_id buf)]) := by
  constructor
  · intro fail n m
    unfold tx
    repeat' split
    all_goals simp_all
  · constructor
    · simp [tx]
    · simp [tx, List.filter_append, isStreamOp]

/-- Witness for C10: a 2001-byte payload — longer than the `ready_tx` limit —
is still framed and streamed, with no oversized-packet error. -/
theorem tx_no_validation_witness :
    (∀ (fail : Option Nat) n m,
      (tx fail (List.replicate 2001 (0 : Nat)) cTest).1 ≠ .err (.txPacketTooBig n m)) ∧
    ((tx none (List.replicate 2001 (0 : Nat)) cTest).1 = .ok () ∧
     (tx none (List.replicate 2001 (0 : Nat)) cTest).2.dev.trace.filter isStreamOp =
       cTest.dev.trace.filter isStreamOp ++
         [.stream (txFrameBytes cTest.next_frame_id (List.replicate 2001 (0 : Nat)))]) :=
  ⟨(tx_no_validation (List.replicate 2001 0) cTest).1,
   (tx_no_validation (List.replicate 2001 0) cTest).2⟩

/-! ## C4: the frame-id counter -/

/-- The release-error-frame bit reads clear after any store to `RXQCR`
(the chip-side self-clear in `chipStore`). -/
@[simp] lemma testBit_and_FFFE_zero (v : Nat) : (v &&& 0xFFFE).testBit 0 = false := by
  have h : (0xFFFE : Nat).testBit 0 = false := by decide
  simp [Nat.testBit_and, h]

/-- On a non-failing transport `tx` advances the frame-id counter exactly by
the source's wrap-at-31 increment, and succeeds. -/
lemma tx_step (buf : List Nat) (c : Chip) :
    (tx none buf c).2.next_frame_id =
        (if c.next_frame_id = 0x1f then 0 else c.next_frame_id + 1) ∧
      (tx none buf c).1 = .ok () := by
  simp [tx]

/-- Whatever the transport does, a `tx` call either leaves the frame-id
counter alone (an abort before the streaming write completed) or advances it
by the wrap-at-31 increment. -/
lemma tx_nextFrameId_cases (fail : Option Nat) (buf : List Nat) (c : Chip) :
    (tx fail buf c).2.next_frame_id = c.next_frame_id ∨
    (tx fail buf c).2.next_frame_id =
      (if c.next_frame_id = 0x1f then 0 else c.next_frame_id + 1) := by
  unfold tx
  repeat' split
  all_goals simp_all

/-- The driver's public operations — each carrying its own transport-failure
oracle — for quantifying over call sequences. -/
inductive DriverOp where
  | dInit (fail : Option Nat)
  | dSetLeds (fail : Option Nat) (on_ : Bool)
  | dSetMac (fail : Option Nat) (mac : List Nat)
  | dGetMac (fail : Option Nat)
  | dLinkGood (fail : Option Nat)
  | dReadyTx (fail : Option Nat) (len : Nat)
  | dTx (fail : Option Nat) (buf : List Nat)
  | dRxFramesAvailable (fail : Option Nat)
  | dRx (fail : Option Nat) (fuel bufLen : Nat) (rxBuf : List Nat)

/-- Run one driver operation, keeping the resulting driver state.  Only `tx`
borrows the frame-id counter; every other operation touches just the bus. -/
def applyOp : DriverOp → Chip → Chip
  | .dInit fail, c => { c with dev := (init fail c.dev).2 }
  | .dSetLeds fail b, c => { c with dev := (set_leds fail b c.dev).2 }
  | .dSetMac fail mac, c => { c with dev := (set_mac fail mac c.dev).2 }
  | .dGetMac fail, c => { c with dev := (get_mac fail c.dev).2 }
  | .dLinkGood fail, c => { c with dev := (link_good fail c.dev).2 }
  | .dReadyTx fail len, c => { c with dev := (ready_tx fail len c.dev).2 }
  | .dTx fail buf, c => (tx fail buf c).2
  | .dRxFramesAvailable fail, c => { c with dev := (rx_frames_available fail c.dev).2 }
  | .dRx fail fuel bufLen rxBuf, c => { c with dev := (rx fail fuel bufLen rxBuf c.dev).2 }

/-- Run a sequence of driver operations. -/
def runOps (ops : List DriverOp) (c : Chip) : Chip :=
  ops.foldl (fun c op => applyOp op c) c

/-- Every driver operation keeps the frame-id counter below 32. -/
lemma applyOp_inv (op : DriverOp) (c : Chip) (h32 : c.next_frame_id < 32) :
    (applyOp op c).next_frame_id < 32 := by
  cases op with
  | dTx fail buf =>
    show (tx fail buf c).2.next_frame_id < 32
    rcases tx_nextFrameId_cases fail buf c with h | h <;> rw [h]
    · exact h32
    · split <;> omega
  | dInit fail => simpa [applyOp] using h32
  | dSetLeds fail b => simpa [applyOp] using h32
  | dSetMac fail mac => simpa [applyOp] using h32
  | dGetMac fail => simpa [applyOp] using h32
  | dLinkGood fail => simpa [applyOp] using h32
  | dReadyTx fail len => simpa [applyOp] using h32
  | dRxFramesAvailable fail => simpa [applyOp] using h32
  | dRx fail fuel bufLen rxBuf => simpa [applyOp] using h32

/-- The invariant holds along any operation sequence. -/
lemma runOps_inv (ops : List DriverOp) (c : Chip) (h32 : c.next_frame_id < 32) :
    (runOps ops c).next_frame_id < 32 := by
  induction ops generalizing c with
  | nil => exact h32
  | cons op ops ih =>
    simpa [runOps, List.foldl_cons] using ih (applyOp op c) (applyOp_inv op c h32)

/-- Iterate `tx` on a non-failing transport with a fixed payload. -/
def txIter (buf : List Nat) : Nat → Chip → Chip
  | 0, c => c
  | n + 1, c => txIter buf n (tx none buf c).2

/-- After `n` successful `tx` calls the counter equals its start plus `n`,
modulo 32. -/
lemma txIter_nextFrameId (buf : List Nat) (n : Nat) (c : Chip)
    (h32 : c.next_frame_id < 32) :
    (txIter buf n c).next_frame_id = (c.next_frame_id + n) % 32 := by
  induction n generalizing c with
  | zero => simp [txIter]; omega
  | succ m ih =>
    have hs := tx_step buf c
    have hlt : (tx none buf c).2.next_frame_id < 32 := by rw [hs.1]; split <;> omega
    rw [txIter, ih (tx none buf c).2 hlt, hs.1]
    split <;> omega

/-- The 6-bit frame-id field inside the emitted control word (the low 6 bits
of byte 1 of the streaming transaction) equals the driver's counter whenever
the counter is in range. -/
lemma txFrameBytes_frameId (fid : Nat) (buf : List Nat) (h : fid < 32) :
    (txFrameBytes fid buf).getD 1 0 &&& 63 = fid := by
  have h64 : ∀ x : Nat, x &&& 63 = x % 64 := fun x => by
    have hx := Nat.and_pow_two_sub_one_eq_mod x 6
    norm_num at hx
    exact hx
  simp only [txFrameBytes, TXCtrlWord.into_bytes, List.cons_append, List.nil_append,
    List.getD_cons_succ, List.getD_cons_zero, h64]
  omega

/-- C4: the frame-id counter is a modulo-32 counter.  Starting from a fresh
driver (`Chip::new`, counter 0): after `n` successful `tx` calls the counter
reads `n mod 32` — in particular 31 after 31 calls and 0 (wrapped back)
after 32; after any sequence of driver operations, each with any transport
behaviour, the counter stays below 32; and each `tx` emits in its streaming
transaction a control word whose 6-bit frame-id field equals the current
counter value, hence always below 32. -/
theorem frame_id_counter_mod32 (regs : Nat → Nat) (rxSt rxBc : Nat) (rxPl : Nat → Nat) :
    (∀ (buf : List Nat) (n : Nat),
      (txIter buf n (Chip.new (newS regs rxSt rxBc rxPl))).next_frame_id = n % 32) ∧
    (∀ ops : List DriverOp,
      (runOps ops (Chip.new (newS regs rxSt rxBc rxPl))).next_frame_id < 32) ∧
    (∀ (buf : List Nat) (c : Chip), c.next_frame_id < 32 →
      (tx none buf c).2.dev.trace.filter isStreamOp =
        c.dev.trace.filter isStreamOp ++ [.stream (txFrameBytes c.next_frame_id buf)] ∧
      (txFrameBytes c.next_frame_id buf).getD 1 0 &&& 63 = c.next_frame_id) := by
  refine ⟨?_, ?_, ?_⟩
  · intro buf n
    have h := txIter_nextFrameId buf n (Chip.new (newS regs rxSt rxBc rxPl))
      (by simp [Chip.new])
    simpa [Chip.new] using h
  · intro ops
    exact runOps_inv ops (Chip.new (newS regs rxSt rxBc rxPl)) (by simp [Chip.new])
  · intro buf c h32
    refine ⟨?_, txFrameBytes_frameId c.next_frame_id buf h32⟩
    simp [tx, List.filter_append, isStreamOp]

/-- Witness for C4 on a fresh driver over an all-zero chip: 31 `tx` calls
reach counter 31, the 32nd wraps it to 0; a two-operation sequence keeps the
counter below 32; and the first `tx` emits frame id 0. -/
theorem frame_id_counter_mod32_witness :
    ((txIter [] 31 (Chip.new (newS zeroRegs 0 0 (fun _ => 0)))).next_frame_id = 31 ∧
     (txIter [] 32 (Chip.new (newS zeroRegs 0 0 (fun _ => 0)))).next_frame_id = 0) ∧
    (runOps [.dReadyTx none 5, .dTx none []]
      (Chip.new (newS zeroRegs 0 0 (fun _ => 0)))).next_frame_id < 32 ∧
    (txFrameBytes (Chip.new (newS zeroRegs 0 0 (fun _ => 0))).next_frame_id []).getD 1 0
        &&& 63 = (Chip.new (newS zeroRegs 0 0 (fun _ => 0))).next_frame_id := by
  have h := frame_id_counter_mod32 zeroRegs 0 0 (fun _ => 0)
  refine ⟨⟨h.1 [] 31, h.1 [] 32⟩, h.2.1 [.dReadyTx none 5, .dTx none []], ?_⟩
  exact (h.2.2 [] (Chip.new (newS zeroRegs 0 0 (fun _ => 0))) (by simp [Chip.new])).2

/-! ## The `rx` success path (C5, C6, C8) -/

@[simp] lemma readAll_frame_valid (v : Nat) :
    (readAllRXFHSR v).frame_valid = v.testBit 15 := rfl
@[simp] lemma readAll_icmp (v : Nat) :
    (readAllRXFHSR v).icmp_checksum_status = v.testBit 13 := rfl
@[simp] lemma readAll_ip (v : Nat) :
    (readAllRXFHSR v).ip_checksum_status = v.testBit 12 := rfl
@[simp] lemma readAll_tcp (v : Nat) :
    (readAllRXFHSR v).tcp_checksum_status = v.testBit 11 := rfl
@[simp] lemma readAll_udp (v : Nat) :
    (readAllRXFHSR v).udp_checksum_status = v.testBit 10 := rfl
@[simp] lemma readAll_mii (v : Nat) :
    (readAllRXFHSR v).mii_error = v.testBit 4 := rfl
@[simp] lemma readAll_too_long (v : Nat) :
    (readAllRXFHSR v).frame_too_long = v.testBit 2 := rfl
@[simp] lemma readAll_runt (v : Nat) :
    (readAllRXFHSR v).runt_frame = v.testBit 1 := rfl
@[simp] lemma readAll_crc (v : Nat) :
    (readAllRXFHSR v).crc_error = v.testBit 0 := rfl

/-- A pending valid, error-free frame that fits the caller's `bufLen`-byte
buffer, with the RX interrupt disabled (the `rx` precondition) and the
chip's streamed header consistent with the register header. -/
def RxCleanFrame (bufLen : Nat) (s : S) : Prop :=
  (s.regs IER_ADDR).testBit 13 = false ∧
  (s.regs RXFHSR_ADDR).testBit 15 = true ∧
  (s.regs RXFHSR_ADDR).testBit 0 = false ∧
  (s.regs RXFHSR_ADDR).testBit 1 = false ∧
  (s.regs RXFHSR_ADDR).testBit 2 = false ∧
  (s.regs RXFHSR_ADDR).testBit 4 = false ∧
  (s.regs RXFHSR_ADDR).testBit 10 = false ∧
  (s.regs RXFHSR_ADDR).testBit 11 = false ∧
  (s.regs RXFHSR_ADDR).testBit 12 = false ∧
  (s.regs RXFHSR_ADDR).testBit 13 = false ∧
  ¬ bufLen < (s.regs RXFHBCR_ADDR &&& 0xFFF) ∧
  ¬ (s.regs RXFHBCR_ADDR &&& 0xFFF) < 6 ∧
  readAllRXFHSR (s.regs RXFHSR_ADDR) = readAllRXFHSR s.rxStreamStatus ∧
  (s.regs RXFHBCR_ADDR &&& 0xFFF) = s.rxStreamBc &&& 0xFFF

instance (bufLen : Nat) (s : S) : Decidable (RxCleanFrame bufLen s) := by
  unfold RxCleanFrame
  infer_instance

/-- On a non-failing transport, `rx` on a clean pending frame returns
`byte_count - 4` together with the buffer whose first `byte_count - 4 - 2`
bytes were overwritten by the streamed payload, and restores the saved
interrupt mask. -/
lemma rx_success_run (fuel bufLen : Nat) (rxBuf : List Nat) (s : S)
    (h : RxCleanFrame bufLen s) :
    (rx none fuel bufLen rxBuf s).1 =
      .ok ((s.regs RXFHBCR_ADDR &&& 0xFFF) - 4,
        (List.range ((s.regs RXFHBCR_ADDR &&& 0xFFF) - 4 - 2)).map s.rxStreamPayload
          ++ rxBuf.drop ((s.regs RXFHBCR_ADDR &&& 0xFFF) - 4 - 2)) ∧
    (rx none fuel bufLen rxBuf s).2.regs IER_ADDR = s.regs IER_ADDR := by
  obtain ⟨hA, hB, hC0, hC1, hC2, hC4, hC10, hC11, hC12, hC13, hD, hE, hF, hG⟩ := h
  simp only [IER_ADDR, RXFHSR_ADDR, RXFHBCR_ADDR] at *
  simp [rx, hA, hB, hC0, hC1, hC2, hC4, hC10, hC11, hC12, hC13, hD, hE,
    chipStore_apply]
  simp [hF, hG, chipStore_apply]

/-! ## C8: `rx` reported payload length vs bytes placed -/

/-- Register file with a clean pending 20-byte frame. -/
def rxFrameRegs : Nat → Nat :=
  fun a => if a = RXFHSR_ADDR then 0x8000 else if a = RXFHBCR_ADDR then 20 else 0

/-- State with that frame pending and a stream delivering matching header
words and payload bytes `0x11`. -/
def sRxFrame : S := newS rxFrameRegs 0x8000 20 (fun _ => 0x11)

/-- Counterexample for C8 as stated: on a pending valid frame with byte
count 20, `rx` into a 20-byte buffer previously holding `0xAA` returns
payload length `16 = 20 - 4`, but only 14 payload bytes (`0x11`) were placed
at the start of the buffer: byte 14 still holds the old `0xAA`, so the
first 16 bytes are not 16 payload bytes. -/
theorem rx_places_fewer_bytes_than_reported :
    (rx none 5 20 (List.replicate 20 0xAA) sRxFrame).1 =
      .ok (16, List.replicate 14 0x11 ++ List.replicate 6 0xAA) ∧
    (List.replicate 14 (0x11 : Nat) ++ List.replicate 6 0xAA).getD 14 0 = 0xAA ∧
    ((List.replicate 14 (0x11 : Nat) ++ List.replicate 6 0xAA).take 16 ≠
      List.replicate 16 0x11) := by
  refine ⟨?_, by decide, by decide⟩
  decide

/-- C8 (amended): for every successful `rx` of a clean, error-free frame on
a non-failing transport, the returned payload length equals the frame
header's byte count minus the 4-byte prefix, but the number of payload bytes
placed at the start of the caller's buffer is the byte count minus 6: the
2-byte IP-header offset that follows the stream header is discarded, so two
fewer bytes than the reported length are written. -/
theorem rx_payload_length_amended (fuel bufLen : Nat) (rxBuf : List Nat) (s : S)
    (h : RxCleanFrame bufLen s) :
    (rx none fuel bufLen rxBuf s).1 =
      .ok ((s.regs RXFHBCR_ADDR &&& 0xFFF) - 4,
        (List.range ((s.regs RXFHBCR_ADDR &&& 0xFFF) - 4 - 2)).map s.rxStreamPayload
          ++ rxBuf.drop ((s.regs RXFHBCR_ADDR &&& 0xFFF) - 4 - 2)) ∧
    ((List.range ((s.regs RXFHBCR_ADDR &&& 0xFFF) - 4 - 2)).map s.rxStreamPayload).length =
      (s.regs RXFHBCR_ADDR &&& 0xFFF) - 4 - 2 := by
  refine ⟨(rx_success_run fuel bufLen rxBuf s h).1, ?_⟩
  simp

/-- Witness for C8 (amended) on the concrete 20-byte frame: `rx` reports 16
and places 14 payload bytes. -/
theorem rx_payload_length_amended_witness :
    RxCleanFrame 20 sRxFrame ∧
    ((rx none 5 20 (List.replicate 20 0xAA) sRxFrame).1 =
      .ok ((sRxFrame.regs RXFHBCR_ADDR &&& 0xFFF) - 4,
        (List.range ((sRxFrame.regs RXFHBCR_ADDR &&& 0xFFF) - 4 - 2)).map
            sRxFrame.rxStreamPayload
          ++ (List.replicate 20 0xAA).drop ((sRxFrame.regs RXFHBCR_ADDR &&& 0xFFF) - 4 - 2)) ∧
     ((List.range ((sRxFrame.regs RXFHBCR_ADDR &&& 0xFFF) - 4 - 2)).map
         sRxFrame.rxStreamPayload).length =
       (sRxFrame.regs RXFHBCR_ADDR &&& 0xFFF) - 4 - 2) :=
  ⟨by decide, rx_payload_length_amended 5 20 (List.replicate 20 0xAA) sRxFrame (by decide)⟩

/-! ## C5: interrupt-mask save / clear / restore -/

/-- Idle chip: non-zero interrupt mask (`0x8000`, link-change enabled; RX
interrupt disabled as `rx` asserts) and no pending frame. -/
def rxIdleRegs : Nat → Nat := fun a => if a = IER_ADDR then 0x8000 else 0

/-- Bus/chip state over the idle chip. -/
def sRxIdle : S := newS rxIdleRegs 0 0 (fun _ => 0)

/-- Idle chip with a pending frame marked valid but with a CRC error. -/
def rxBadFrameRegs : Nat → Nat :=
  fun a => if a = IER_ADDR then 0x8000
    else if a = RXFHSR_ADDR then 0x8001
    else if a = RXFHBCR_ADDR then 20 else 0

/-- Bus/chip state over the CRC-error chip. -/
def sRxBad : S := newS rxBadFrameRegs 0 0 (fun _ => 0)

/-- Counterexample for C5 as stated: with the interrupt-enable register at
`0x8000`, an `rx` call finding no pending frame returns the (routine,
recoverable) no-frame error with the interrupt-enable register still
cleared to 0 — the saved prior mask is not restored on this error exit. -/
theorem rx_error_exit_leaves_interrupts_cleared :
    sRxIdle.regs IER_ADDR = 0x8000 ∧
    (rx none 5 64 (List.replicate 64 0) sRxIdle).1 = .err .rxNoFrameAvailable ∧
    (rx none 5 64 (List.replicate 64 0) sRxIdle).2.regs IER_ADDR = 0 := by
  refine ⟨by decide, ?_, ?_⟩ <;> decide

/-- C5 (amended): `tx` and `rx` save the interrupt-enable register on entry
and clear it; on the successful exit path the saved prior mask is restored
verbatim; on the error exits — exhibited here for `rx`'s no-frame and
invalid-frame returns and for a transport error during `tx`'s streaming
write — the interrupt-enable register is left cleared, not restored. -/
theorem interrupt_mask_save_restore_amended :
    (∀ (buf : List Nat) (c : Chip),
      (tx none buf c).1 = .ok () ∧
      (tx none buf c).2.dev.regs IER_ADDR = c.dev.regs IER_ADDR) ∧
    (∀ (fuel bufLen : Nat) (rxBuf : List Nat) (s : S), RxCleanFrame bufLen s →
      (rx none fuel bufLen rxBuf s).2.regs IER_ADDR = s.regs IER_ADDR) ∧
    ((rx none 5 64 (List.replicate 64 0) sRxIdle).1 = .err .rxNoFrameAvailable ∧
     (rx none 5 64 (List.replicate 64 0) sRxIdle).2.regs IER_ADDR = 0 ∧
     sRxIdle.regs IER_ADDR = 0x8000) ∧
    ((rx none 5 64 (List.replicate 64 0) sRxBad).1 = .err .rxFrameInvalid ∧
     (rx none 5 64 (List.replicate 64 0) sRxBad).2.regs IER_ADDR = 0 ∧
     sRxBad.regs IER_ADDR = 0x8000) ∧
    ((tx (some 4) [] (Chip.new sRxIdle)).1 = .err .spiError ∧
     (tx (some 4) [] (Chip.new sRxIdle)).2.dev.regs IER_ADDR = 0) := by
  refine ⟨?_, ?_, ⟨by decide, by decide, by decide⟩, ⟨by decide, by decide, by decide⟩,
    ⟨by decide, by decide⟩⟩
  · intro buf c
    constructor
    · simp [tx]
    · simp [tx, chipStore_apply]
  · intro fuel bufLen rxBuf s h
    exact (rx_success_run fuel bufLen rxBuf s h).2

/-- Witness for C5 (amended): the general restore parts applied on concrete
runs — a `tx` of `[7]` on the idle chip, and an `rx` of the clean 20-byte
frame. -/
theorem interrupt_mask_save_restore_amended_witness :
    ((tx none [7] (Chip.new sRxIdle)).1 = .ok () ∧
     (tx none [7] (Chip.new sRxIdle)).2.dev.regs IER_ADDR =
       (Chip.new sRxIdle).dev.regs IER_ADDR) ∧
    RxCleanFrame 20 sRxFrame ∧
    (rx none 5 20 (List.replicate 20 0xAA) sRxFrame).2.regs IER_ADDR =
      sRxFrame.regs IER_ADDR :=
  ⟨interrupt_mask_save_restore_amended.1 [7] (Chip.new sRxIdle), by decide,
   interrupt_mask_save_restore_amended.2.1 5 20 (List.replicate 20 0xAA) sRxFrame (by decide)⟩

/-! ## C7: error propagation in `init` -/

/-- A chip whose identity register reads back correctly (family `0x88`,
chip `0x7`) and whose self-test registers report success, so that a
non-failing `init` runs to completion. -/
def initOkRegs : Nat → Nat := fun a => if a = CIDER_ADDR then 0x8870 else 0

/-- Bus/chip state over that chip. -/
def sInitOk : S := newS initOkRegs 0 0 (fun _ => 0)

/-- Counterexample for C7 as stated: a transport error at bus operation 4 —
the `TXFDPR` read opening configuration step 4 — makes `init` panic
(`.unwrap()` on the failed transfer), not return a transport error. -/
theorem init_config_step_error_panics :
    (init (some 4) sInitOk).1 = .panicked ∧
    (∀ e, (init (some 4) sInitOk).1 ≠ .err e) := by
  have h : (init (some 4) sInitOk).1 = .panicked := by decide
  exact ⟨h, fun e => by rw [h]; exact fun hc => Outcome.noConfusion hc⟩

/-- C7 (amended): `init` issues a fixed sequence of 26 bus transactions.  A
transport failure at any of the first four (the two reset writes and the
identity/self-test reads, guarded by `?`) is returned to the caller as a
transport error; a failure at any later configuration access aborts by panic
(`.unwrap()`), not as a returned error.  In every case `init` stops at the
failing transaction — its trace is the prefix, through the failing
operation, of the non-failing run's trace — and no operation is retried. -/
theorem init_error_propagation_amended :
    (init none sInitOk).1 = .ok () ∧
    (init none sInitOk).2.trace.length = 26 ∧
    (∀ k, k < 26 →
      (init (some k) sInitOk).1 = (if k < 4 then .err .spiError else .panicked) ∧
      (init (some k) sInitOk).2.trace = ((init none sInitOk).2.trace).take (k + 1) ∧
      (init (some k) sInitOk).2.opIdx = k + 1) := by
  refine ⟨by decide, by decide, ?_⟩
  decide

/-- Witness for C7 (amended) at the failing indices 2 (identity read,
returned error) and 4 (first configuration access, panic). -/
theorem init_error_propagation_amended_witness :
    (2 < 26 ∧
      ((init (some 2) sInitOk).1 = (if 2 < 4 then .err .spiError else .panicked) ∧
       (init (some 2) sInitOk).2.trace = ((init none sInitOk).2.trace).take 3 ∧
       (init (some 2) sInitOk).2.opIdx = 3)) ∧
    (4 < 26 ∧
      ((init (some 4) sInitOk).1 = (if 4 < 26 ∧ 4 ≥ 4 then .panicked else .err .spiError) ∧
       (init (some 4) sInitOk).2.trace = ((init none sInitOk).2.trace).take 5 ∧
       (init (some 4) sInitOk).2.opIdx = 5)) := by
  have h := init_error_propagation_amended
  refine ⟨⟨by decide, h.2.2 2 (by decide)⟩, ⟨by decide, ?_, (h.2.2 4 (by decide)).2.1,
    (h.2.2 4 (by decide)).2.2⟩⟩
  have h4 := (h.2.2 4 (by decide)).1
  simpa using h4

/-! ## C6: the `rx` stream consistency check -/

/-- C6: whatever the transport does, if `rx` returns a success value then
the status word and byte count embedded in the stream agreed (as decoded
headers) with the values read via register access before the stream began:
under a mismatch `rx` fails (here: panics at the `assert_eq!`) rather than
returning data. -/
theorem rx_consistency_check (fail : Option Nat) (fuel bufLen : Nat) (rxBuf : List Nat)
    (s : S) (r : Nat × List Nat)
    (h : (rx fail fuel bufLen rxBuf s).1 = .ok r) :
    readAllRXFHSR (s.regs RXFHSR_ADDR) = readAllRXFHSR s.rxStreamStatus ∧
    (s.regs RXFHBCR_ADDR &&& 0xFFF) = s.rxStreamBc &&& 0xFFF := by
  unfold rx at h
  -- step 1: read IER
  rcases e1 : busReadReg fail IER_ADDR s with ⟨o1, s1⟩
  rw [e1] at h
  rcases o1 with _ | ier
  · simp at h
  simp only [] at h
  obtain ⟨hv1, hs1⟩ := busReadReg_some fail IER_ADDR s e1
  subst hv1
  have f1 : s1.regs = s.regs ∧ s1.rxStreamStatus = s.rxStreamStatus ∧
      s1.rxStreamBc = s.rxStreamBc := by rw [hs1]; exact ⟨rfl, rfl, rfl⟩
  -- the receive-enable assertion
  by_cases c1 : (s.regs IER_ADDR).testBit 13 = true
  · rw [if_pos c1] at h; simp at h
  rw [if_neg c1] at h
  -- step 2: clear IER
  rcases e2 : busWriteReg fail IER_ADDR 0 s1 with ⟨o2, s2⟩
  rw [e2] at h
  rcases o2 with _ | u2
  · simp at h
  simp only [] at h
  have hs2 := busWriteReg_some fail IER_ADDR 0 s1 e2
  have f2 : s2.regs RXFHSR_ADDR = s.regs RXFHSR_ADDR ∧
      s2.regs RXFHBCR_ADDR = s.regs RXFHBCR_ADDR ∧
      s2.rxStreamStatus = s.rxStreamStatus ∧ s2.rxStreamBc = s.rxStreamBc := by
    rw [hs2]
    refine ⟨?_, ?_, f1.2.1, f1.2.2⟩ <;> simp [chipStore_apply, f1.1]
  -- step 3: read the frame-header status register
  rcases e3 : busReadReg fail RXFHSR_ADDR s2 with ⟨o3, s3⟩
  rw [e3] at h
  rcases o3 with _ | frameStatus
  · simp at h
  simp only [] at h
  obtain ⟨hv3, hs3⟩ := busReadReg_some fail RXFHSR_ADDR s2 e3
  rw [f2.1] at hv3
  subst hv3
  have f3 : s3.regs RXFHBCR_ADDR = s.regs RXFHBCR_ADDR ∧
      s3.rxStreamStatus = s.rxStreamStatus ∧ s3.rxStreamBc = s.rxStreamBc := by
    rw [hs3]; exact ⟨f2.2.1, f2.2.2.1, f2.2.2.2⟩
  -- step 4: read the frame-header byte-count register
  rcases e4 : busReadReg fail RXFHBCR_ADDR s3 with ⟨o4, s4⟩
  rw [e4] at h
  rcases o4 with _ | bcRaw
  · simp at h
  simp only [] at h
  obtain ⟨hv4, hs4⟩ := busReadReg_some fail RXFHBCR_ADDR s3 e4
  rw [f3.1] at hv4
  subst hv4
  have f4 : s4.rxStreamStatus = s.rxStreamStatus ∧ s4.rxStreamBc = s.rxStreamBc := by
    rw [hs4]; exact ⟨f3.2.1, f3.2.2⟩
  -- frame-valid check
  by_cases cv : (!(readAllRXFHSR (s.regs RXFHSR_ADDR)).frame_valid) = true
  · rw [if_pos cv] at h; simp at h
  rw [if_neg cv] at h
  -- error-flag check: the discard path never returns data
  by_cases ce : (readAllRXFHSR (s.regs RXFHSR_ADDR)).crc_error = true ∨
      (readAllRXFHSR (s.regs RXFHSR_ADDR)).runt_frame = true ∨
      (readAllRXFHSR (s.regs RXFHSR_ADDR)).frame_too_long = true ∨
      (readAllRXFHSR (s.regs RXFHSR_ADDR)).mii_error = true ∨
      (readAllRXFHSR (s.regs RXFHSR_ADDR)).udp_checksum_status = true ∨
      (readAllRXFHSR (s.regs RXFHSR_ADDR)).tcp_checksum_status = true ∨
      (readAllRXFHSR (s.regs RXFHSR_ADDR)).ip_checksum_status = true ∨
      (readAllRXFHSR (s.regs RXFHSR_ADDR)).icmp_checksum_status = true
  · rw [if_pos ce] at h
    rcases e5d : busReadReg fail RXQCR_ADDR s4 with ⟨o5d, s5d⟩
    rw [e5d] at h
    rcases o5d with _ | rxqcr
    · simp at h
    simp only [] at h
    rcases e6d : busWriteReg fail RXQCR_ADDR (withBit rxqcr 0 true) s5d with ⟨o6d, s6d⟩
    rw [e6d] at h
    rcases o6d with _ | u6d
    · simp at h
    simp only [] at h
    rcases ew : waitReleaseClear fail fuel s6d with ⟨ow, sw⟩
    rw [ew] at h
    rcases ow <;> simp at h
  rw [if_neg ce] at h
  -- buffer-capacity and underflow checks
  by_cases cb : bufLen < s.regs RXFHBCR_ADDR &&& 0xFFF
  · rw [if_pos cb] at h; simp at h
  rw [if_neg cb] at h
  by_cases c6 : s.regs RXFHBCR_ADDR &&& 0xFFF < 6
  · rw [if_pos c6] at h; simp at h
  rw [if_neg c6] at h
  -- step 5: read RXFDPR
  rcases e5 : busReadReg fail RXFDPR_ADDR s4 with ⟨o5, s5⟩
  rw [e5] at h
  rcases o5 with _ | rxfdpr
  · simp at h
  simp only [] at h
  obtain ⟨hv5, hs5⟩ := busReadReg_some fail RXFDPR_ADDR s4 e5
  have f5 : s5.rxStreamStatus = s.rxStreamStatus ∧ s5.rxStreamBc = s.rxStreamBc := by
    rw [hs5]; exact f4
  -- step 6: reset the RX frame pointer
  rcases e6 : busWriteReg fail RXFDPR_ADDR (rxfdpr &&& 0xF800) s5 with ⟨o6, s6⟩
  rw [e6] at h
  rcases o6 with _ | u6
  · simp at h
  simp only [] at h
  have hs6 := busWriteReg_some fail RXFDPR_ADDR (rxfdpr &&& 0xF800) s5 e6
  have f6 : s6.rxStreamStatus = s.rxStreamStatus ∧ s6.rxStreamBc = s.rxStreamBc := by
    rw [hs6]; exact f5
  -- step 7: read RXQCR
  rcases e7 : busReadReg fail RXQCR_ADDR s6 with ⟨o7, s7⟩
  rw [e7] at h
  rcases o7 with _ | rxqcr
  · simp at h
  simp only [] at h
  obtain ⟨hv7, hs7⟩ := busReadReg_some fail RXQCR_ADDR s6 e7
  have f7 : s7.rxStreamStatus = s.rxStreamStatus ∧ s7.rxStreamBc = s.rxStreamBc := by
    rw [hs7]; exact f6
  -- step 8: enable streaming access
  rcases e8 : busWriteReg fail RXQCR_ADDR (withBit rxqcr 3 true) s7 with ⟨o8, s8⟩
  rw [e8] at h
  rcases o8 with _ | u8
  · simp at h
  simp only [] at h
  have hs8 := busWriteReg_some fail RXQCR_ADDR (withBit rxqcr 3 true) s7 e8
  have f8 : s8.rxStreamStatus = s.rxStreamStatus ∧ s8.rxStreamBc = s.rxStreamBc := by
    rw [hs8]; exact f7
  -- step 9: the streaming read
  rcases e9 : busStreamRead fail ((s.regs RXFHBCR_ADDR &&& 0xFFF) - 4 - 2)
      ((4 - (s.regs RXFHBCR_ADDR &&& 0xFFF) % 4) % 4) s8 with ⟨o9, s9⟩
  rw [e9] at h
  rcases o9 with _ | ⟨stS, bcS, pl⟩
  · simp at h
  obtain ⟨hts, hs9⟩ := busStreamRead_some fail _ _ s8 e9
  simp only [Prod.mk.injEq] at hts
  obtain ⟨rfl, rfl, rfl⟩ := hts
  simp only [] at h
  -- the two assert_eq! checks give the claim
  by_cases cst : readAllRXFHSR (s.regs RXFHSR_ADDR) ≠ readAllRXFHSR s8.rxStreamStatus
  · rw [if_pos cst] at h; simp at h
  rw [if_neg cst] at h
  by_cases cbc : s.regs RXFHBCR_ADDR &&& 0xFFF ≠ s8.rxStreamBc &&& 0xFFF
  · rw [if_pos cbc] at h; simp at h
  refine ⟨?_, ?_⟩
  · have := not_not.mp cst
    rwa [f8.1] at this
  · have := not_not.mp cbc
    rw [f8.2] at this
    -- relate `bcRaw` back to the register value read before the stream
    exact this

/-- Witness for C6 on the concrete clean 20-byte frame: the successful `rx`
run implies the stream/register header agreement. -/
theorem rx_consistency_check_witness :
    ((rx none 5 20 (List.replicate 20 0xAA) sRxFrame).1 =
      .ok (16, List.replicate 14 0x11 ++ List.replicate 6 0xAA)) ∧
    (readAllRXFHSR (sRxFrame.regs RXFHSR_ADDR) = readAllRXFHSR sRxFrame.rxStreamStatus ∧
     (sRxFrame.regs RXFHBCR_ADDR &&& 0xFFF) = sRxFrame.rxStreamBc &&& 0xFFF) :=
  ⟨by decide,
   rx_consistency_check none 5 20 (List.replicate 20 0xAA) sRxFrame
     (16, List.replicate 14 0x11 ++ List.replicate 6 0xAA) (by decide)⟩

end Ksz8851
